import Mathlib

/-!
Shallow embedding of the `read-logger` Rust crate (`src/lib.rs`).

The crate wraps a `Read` implementation with a statistics logger:

* `ReadStatsLogger` holds a tag, a log level and two `usize` counters
  (`read_count`, `bytes_total`); `new` emits one header log line and
  `log` increments the counters (usize arithmetic wraps) and emits one
  data log line.
* `ReadLogger<T: Read>` owns an inner reader and a `ReadStatsLogger`;
  its `read` delegates to the inner read first and, on success with
  delivered byte count `n`, calls `logger.log(0, n, buf.len())`; its
  `seek` delegates directly to the inner seek.

`usize` values are modelled as `Nat` reduced `% 2 ^ 64` where the source
arithmetic may wrap.  A reader is modelled generically by a state type
`σ` together with a read function `σ → List Nat → σ × List Nat × Except
E Nat`: given the inner state and the caller's buffer (a list of bytes)
it returns the inner state after the call, the buffer after the call and
the delivered count or an error; this mirrors Rust's `&mut self` and
`&mut [u8]`, which persist on both the success and the failure path.
Log emission is modelled by returning the emitted lines explicitly.
-/

/-- The `usize` modulus: the counters in the source are 64-bit. -/
def usizeW : Nat := 2 ^ 64

/-- Log severity levels of the `log` crate (`log::Level`). -/
inductive Level where
  | error
  | warn
  | info
  | debug
  | trace
deriving DecidableEq, Repr

/-- The struct `ReadStatsLogger` from `src/lib.rs` lines 40-45: a tag, a
level and the two public `usize` counters. -/
structure ReadStatsLogger where
  tag : String
  level : Level
  read_count : Nat
  bytes_total : Nat
deriving DecidableEq, Repr

/-- The header line emitted by `ReadStatsLogger::new` (lines 49-52). -/
def headerLine (tag : String) : String :=
  "Initialize Read logger `" ++ tag ++
  "`,tag,begin,end,length,request_length,count,bytes_total"

/-- The data line emitted by `ReadStatsLogger::log` (lines 66-74):
a human-readable prefix followed by the comma-separated suffix
`tag,begin,end,length,request_length,read_count,bytes_total`, filled
with the post-increment counter values `rc` and `bt`. -/
def dataLine (tag : String) (b e l q rc bt : Nat) : String :=
  "Read " ++ toString b ++ "-" ++ toString e ++ " (" ++ toString l ++
  " bytes). Total requests: " ++ toString rc ++ " (" ++ toString bt ++
  " bytes)," ++ tag ++ "," ++ toString b ++ "," ++ toString e ++ "," ++
  toString l ++ "," ++ toString q ++ "," ++ toString rc ++ "," ++ toString bt

/-- `ReadStatsLogger::new(level, tag)` (lines 48-59): zeroed counters;
the returned list is the log output of the call, exactly the one header
line. -/
def ReadStatsLogger.new (level : Level) (tag : String) :
    ReadStatsLogger × List String :=
  ({ tag := tag, level := level, read_count := 0, bytes_total := 0 },
   [headerLine tag])

/-- `ReadStatsLogger::log(begin, length, request_length)` (lines 61-75):
increments `read_count` by 1 and `bytes_total` by `length` (`usize`
arithmetic, wraparound accepted per the source comment), computes
`end = (begin + length).saturating_sub(1)` (`usize` sum, then saturating
subtraction, which on `Nat` is truncated subtraction) and emits one data
line with the post-increment counter values.  The function is total: it
never fails. -/
def ReadStatsLogger.log (st : ReadStatsLogger) (b l q : Nat) :
    ReadStatsLogger × String :=
  let rc := (st.read_count + 1) % usizeW
  let bt := (st.bytes_total + l) % usizeW
  let e := (b + l) % usizeW - 1
  ({ st with read_count := rc, bytes_total := bt },
   dataLine st.tag b e l q rc bt)

/-- The struct `ReadLogger<T: Read>` (lines 79-82): an inner reader of
state type `σ` plus the stats logger. -/
structure ReadLogger (σ : Type) where
  inner : σ
  logger : ReadStatsLogger
deriving DecidableEq, Repr

/-- `ReadLogger::new(read, level, tag)` (lines 85-90): stores the inner
reader and constructs the embedded `ReadStatsLogger`, whose header line
is the log output of the call. -/
def ReadLogger.new {σ : Type} (inner : σ) (level : Level) (tag : String) :
    ReadLogger σ × List String :=
  ({ inner := inner, logger := (ReadStatsLogger.new level tag).1 },
   (ReadStatsLogger.new level tag).2)

/-- `ReadLogger::stats` (lines 91-93): read-only view of the logger. -/
def ReadLogger.stats {σ : Type} (rl : ReadLogger σ) : ReadStatsLogger :=
  rl.logger

/-- `impl Read for ReadLogger` (lines 96-102): delegate to the inner
read first (`?` propagates its error unchanged and skips the logging),
then on success with delivered count `length` call
`logger.log(0, length, buf.len())` and return `Ok(length)`.  The result
carries the wrapper state after the call, the buffer after the call, the
lines emitted by the call and the `Result`. -/
def ReadLogger.read {σ E : Type}
    (readFn : σ → List Nat → σ × List Nat × Except E Nat)
    (rl : ReadLogger σ) (buf : List Nat) :
    ReadLogger σ × List Nat × List String × Except E Nat :=
  match readFn rl.inner buf with
  | (s2, buf2, .error e) => ({ rl with inner := s2 }, buf2, [], .error e)
  | (s2, buf2, .ok n) =>
      ({ inner := s2, logger := (rl.logger.log 0 n buf.length).1 }, buf2,
       [(rl.logger.log 0 n buf.length).2], .ok n)

/-- The seek target, `std::io::SeekFrom`. -/
inductive SeekFrom where
  | start (n : Nat)
  | fromEnd (d : Int)
  | current (d : Int)
deriving DecidableEq, Repr

/-- `impl Seek for ReadLogger` (lines 104-108): delegate directly to the
inner seek, returning its result unchanged; the logger is untouched on
both the success and the failure path. -/
def ReadLogger.seek {σ E : Type}
    (seekFn : σ → SeekFrom → σ × Except E Nat)
    (rl : ReadLogger σ) (pos : SeekFrom) :
    ReadLogger σ × Except E Nat :=
  ({ rl with inner := (seekFn rl.inner pos).1 }, (seekFn rl.inner pos).2)

deriving instance DecidableEq for Except

/-- Errors of the concrete test readers (standing in for
`std::io::Error`). -/
inductive IOError where
  | eof
  | invalidInput (msg : String)
deriving DecidableEq, Repr

/-- A `std::io::Cursor` over a byte list, as used by the crate's tests:
a data buffer and a position. -/
structure Cursor where
  data : List Nat
  pos : Nat
deriving DecidableEq, Repr

/-- `Cursor::read`: copies `min buf.length remaining` bytes from the
current position into the front of the buffer and advances the
position; never fails. -/
def Cursor.read (c : Cursor) (buf : List Nat) :
    Cursor × List Nat × Except IOError Nat :=
  let chunk := (c.data.drop c.pos).take buf.length
  ({ c with pos := c.pos + chunk.length },
   chunk ++ buf.drop chunk.length, .ok chunk.length)

/-- `Cursor::seek`: `Start` sets the position; `End`/`Current` add a
signed delta to the data length resp. the position and fail on a
negative result, leaving the position unchanged. -/
def Cursor.seek (c : Cursor) (pos : SeekFrom) : Cursor × Except IOError Nat :=
  match pos with
  | .start n => ({ c with pos := n }, .ok n)
  | .fromEnd d =>
      let t : Int := (c.data.length : Int) + d
      if t < 0 then (c, .error (.invalidInput "invalid seek to a negative position"))
      else ({ c with pos := t.toNat }, .ok t.toNat)
  | .current d =>
      let t : Int := (c.pos : Int) + d
      if t < 0 then (c, .error (.invalidInput "invalid seek to a negative position"))
      else ({ c with pos := t.toNat }, .ok t.toNat)

/-- A reader whose read always fails, for exercising the error path. -/
def failingRead : Unit → List Nat → Unit × List Nat × Except IOError Nat :=
  fun u buf => (u, buf, .error .eof)

/-- Run a sequence of reads through a wrapper-read step function,
collecting the emitted data lines; stops at the first inner failure. -/
def runWith {σ E : Type}
    (step : ReadLogger σ → List Nat → ReadLogger σ × List Nat × List String × Except E Nat)
    (rl : ReadLogger σ) : List (List Nat) → ReadLogger σ × List String × Except E Unit
  | [] => (rl, [], .ok ())
  | buf :: bufs =>
    let s := step rl buf
    match s.2.2.2 with
    | .error e => (s.1, s.2.2.1, .error e)
    | .ok _ =>
      let rest := runWith step s.1 bufs
      (rest.1, s.2.2.1 ++ rest.2.1, rest.2.2)

/-- Run a sequence of reads through `ReadLogger::read`. -/
def runReads {σ E : Type}
    (readFn : σ → List Nat → σ × List Nat × Except E Nat)
    (rl : ReadLogger σ) (bufs : List (List Nat)) :
    ReadLogger σ × List String × Except E Unit :=
  runWith (ReadLogger.read readFn) rl bufs

/-- The counters observable after a sequence of reads on a fresh wrapper
over a cursor, together with whether every read succeeded. -/
def statsAfterReads (data : List Nat) (bufs : List (List Nat)) :
    Nat × Nat × Bool :=
  let r := runReads Cursor.read (ReadLogger.new ⟨data, 0⟩ Level.info "READ").1 bufs
  (r.1.logger.read_count, r.1.logger.bytes_total, r.2.2.isOk)

/-- The ten-byte source of the crate's tests (`"0123456789"`). -/
def tenBytes : List Nat := [48, 49, 50, 51, 52, 53, 54, 55, 56, 57]

/-- A four-byte zeroed buffer. -/
def buf4 : List Nat := [0, 0, 0, 0]

/-- Counters after seeking to offset 4 and then reading a 4-byte buffer
on a fresh wrapper over the ten-byte cursor. -/
def seekThenRead : Nat × Nat :=
  let rl0 := (ReadLogger.new (⟨tenBytes, 0⟩ : Cursor) Level.info "READ").1
  let rl1 := (ReadLogger.seek Cursor.seek rl0 (.start 4)).1
  let rl2 := (ReadLogger.read Cursor.read rl1 buf4).1
  (rl2.logger.read_count, rl2.logger.bytes_total)

example : statsAfterReads tenBytes [buf4, buf4, buf4] = (3, 10, true) := by decide

example : seekThenRead = (1, 4) := by decide

/-- Wrapper state of a fresh delivery-counting logger over the ten-byte
cursor, as in the crate's `read_cursor` test. -/
def rlFresh : ReadLogger Cursor :=
  (ReadLogger.new (⟨tenBytes, 0⟩ : Cursor) Level.info "READ").1

/-- C1: under the delivery-counting policy, `ReadLogger::read` first
delegates to the inner read and, on success delivering `n` bytes,
records `(begin = 0, length = n, request_length = buf.len())`, so
`read_count` grows by exactly 1 and `bytes_total` by exactly `n`
(absent wraparound); in particular three 4-byte requests on a 10-byte
source deliver 4, 4 and 2 bytes, ending with `read_count = 3` and
`bytes_total = 10`. -/
theorem delivery_counting_read {σ E : Type}
    (readFn : σ → List Nat → σ × List Nat × Except E Nat)
    (rl : ReadLogger σ) (buf buf2 : List Nat) (n : Nat) (s2 : σ)
    (hok : readFn rl.inner buf = (s2, buf2, .ok n))
    (hrc : rl.logger.read_count + 1 < usizeW)
    (hbt : rl.logger.bytes_total + n < usizeW) :
    (ReadLogger.read readFn rl buf).2.2.2 = .ok n ∧
    (ReadLogger.read readFn rl buf).2.2.1 = [(rl.logger.log 0 n buf.length).2] ∧
    (ReadLogger.read readFn rl buf).1.logger.read_count = rl.logger.read_count + 1 ∧
    (ReadLogger.read readFn rl buf).1.logger.bytes_total = rl.logger.bytes_total + n ∧
    statsAfterReads tenBytes [buf4, buf4, buf4] = (3, 10, true) := by
  refine ⟨?_, ?_, ?_, ?_, by decide⟩ <;>
    simp [ReadLogger.read, hok, ReadStatsLogger.log, Nat.mod_eq_of_lt hrc,
      Nat.mod_eq_of_lt hbt]

/-- Witness for C1 at the first read of the crate's `read_cursor`
test. -/
theorem delivery_counting_read_witness :
    Cursor.read rlFresh.inner buf4 =
      ((⟨tenBytes, 4⟩ : Cursor), [48, 49, 50, 51], .ok 4) ∧
    rlFresh.logger.read_count + 1 < usizeW ∧
    rlFresh.logger.bytes_total + 4 < usizeW ∧
    ((ReadLogger.read Cursor.read rlFresh buf4).2.2.2 = .ok 4 ∧
     (ReadLogger.read Cursor.read rlFresh buf4).2.2.1 =
       [(rlFresh.logger.log 0 4 buf4.length).2] ∧
     (ReadLogger.read Cursor.read rlFresh buf4).1.logger.read_count =
       rlFresh.logger.read_count + 1 ∧
     (ReadLogger.read Cursor.read rlFresh buf4).1.logger.bytes_total =
       rlFresh.logger.bytes_total + 4 ∧
     statsAfterReads tenBytes [buf4, buf4, buf4] = (3, 10, true)) :=
  ⟨by decide, by decide, by decide,
   delivery_counting_read Cursor.read rlFresh buf4 [48, 49, 50, 51] 4
     ⟨tenBytes, 4⟩ (by decide) (by decide) (by decide)⟩

/-- C2: when the inner read fails, `ReadLogger::read` returns exactly
that error (no rewrapping), emits no log line and leaves `read_count`
and `bytes_total` unchanged. -/
theorem read_error_passthrough {σ E : Type}
    (readFn : σ → List Nat → σ × List Nat × Except E Nat)
    (rl : ReadLogger σ) (buf buf2 : List Nat) (e : E) (s2 : σ)
    (herr : readFn rl.inner buf = (s2, buf2, .error e)) :
    (ReadLogger.read readFn rl buf).2.2.2 = .error e ∧
    (ReadLogger.read readFn rl buf).2.2.1 = [] ∧
    (ReadLogger.read readFn rl buf).1.logger = rl.logger := by
  refine ⟨?_, ?_, ?_⟩ <;> simp [ReadLogger.read, herr]

/-- Witness for C2 on a reader whose read always fails. -/
theorem read_error_passthrough_witness :
    failingRead (ReadLogger.new () Level.info "READ").1.inner buf4 =
      ((), buf4, .error IOError.eof) ∧
    ((ReadLogger.read failingRead (ReadLogger.new () Level.info "READ").1 buf4).2.2.2 =
       .error IOError.eof ∧
     (ReadLogger.read failingRead (ReadLogger.new () Level.info "READ").1 buf4).2.2.1 = [] ∧
     (ReadLogger.read failingRead (ReadLogger.new () Level.info "READ").1 buf4).1.logger =
       (ReadLogger.new () Level.info "READ").1.logger) :=
  ⟨by decide,
   read_error_passthrough failingRead (ReadLogger.new () Level.info "READ").1
     buf4 buf4 IOError.eof () (by decide)⟩

/-- C4: immediately after construction, `read_count` and `bytes_total`
are 0 and exactly one header log line has been emitted. -/
theorem fresh_state {σ : Type} (inner : σ) (level : Level) (tag : String) :
    (ReadLogger.new inner level tag).1.stats.read_count = 0 ∧
    (ReadLogger.new inner level tag).1.stats.bytes_total = 0 ∧
    (ReadLogger.new inner level tag).2 = [headerLine tag] ∧
    (ReadLogger.new inner level tag).2.length = 1 :=
  ⟨rfl, rfl, rfl, rfl⟩

/-- C5: `ReadLogger::seek` delegates directly to the inner seek,
returning its result unchanged and leaving the counters unchanged
whether it succeeds or fails; in particular seeking to offset 4 and
then reading 4 bytes yields `read_count = 1` and `bytes_total = 4`. -/
theorem seek_delegates {σ E : Type}
    (seekFn : σ → SeekFrom → σ × Except E Nat)
    (rl : ReadLogger σ) (pos : SeekFrom) :
    (ReadLogger.seek seekFn rl pos).2 = (seekFn rl.inner pos).2 ∧
    (ReadLogger.seek seekFn rl pos).1.inner = (seekFn rl.inner pos).1 ∧
    (ReadLogger.seek seekFn rl pos).1.logger = rl.logger ∧
    seekThenRead = (1, 4) :=
  ⟨rfl, rfl, rfl, by decide⟩

/-- C10: `ReadLogger::read` is value-transparent: on a successful inner
read delivering `n` it returns `Ok n` — exactly the inner count — with
the buffer exactly as the inner read left it; only the logger changes
and one data line is emitted. -/
theorem read_value_transparent {σ E : Type}
    (readFn : σ → List Nat → σ × List Nat × Except E Nat)
    (rl : ReadLogger σ) (buf buf2 : List Nat) (n : Nat) (s2 : σ)
    (hok : readFn rl.inner buf = (s2, buf2, .ok n)) :
    ReadLogger.read readFn rl buf =
      ({ inner := s2, logger := (rl.logger.log 0 n buf.length).1 }, buf2,
       [(rl.logger.log 0 n buf.length).2], .ok n) := by
  simp [ReadLogger.read, hok]

/-- Witness for C10 at the first read of the crate's `read_cursor`
test. -/
theorem read_value_transparent_witness :
    Cursor.read rlFresh.inner buf4 =
      ((⟨tenBytes, 4⟩ : Cursor), [48, 49, 50, 51], .ok 4) ∧
    ReadLogger.read Cursor.read rlFresh buf4 =
      ({ inner := (⟨tenBytes, 4⟩ : Cursor),
         logger := (rlFresh.logger.log 0 4 buf4.length).1 }, [48, 49, 50, 51],
       [(rlFresh.logger.log 0 4 buf4.length).2], .ok 4) :=
  ⟨by decide,
   read_value_transparent Cursor.read rlFresh buf4 [48, 49, 50, 51] 4
     ⟨tenBytes, 4⟩ (by decide)⟩

/-- C6: `ReadStatsLogger::log` emits `end = saturating(begin + length
- 1)` in its data line, the subtraction clamped so it does not underflow
when `begin = 0` and `length = 0`; stated against the saturating value
written on the integers, for `usize` sums that do not overflow. -/
theorem log_end_saturating (st : ReadStatsLogger) (b l q : Nat)
    (hb : b + l < usizeW) :
    (st.log b l q).2 =
      dataLine st.tag b (((b : Int) + (l : Int) - 1).toNat) l q
        ((st.read_count + 1) % usizeW) ((st.bytes_total + l) % usizeW) := by
  have he : (b + l) % usizeW - 1 = ((b : Int) + (l : Int) - 1).toNat := by
    rw [Nat.mod_eq_of_lt hb]
    omega
  simp [ReadStatsLogger.log, he]

/-- Witness for C6 at `begin = 0`, `length = 0`, the underflow-clamp
case. -/
theorem log_end_saturating_witness :
    0 + 0 < usizeW ∧
    ((ReadStatsLogger.new Level.info "READ").1.log 0 0 0).2 =
      dataLine (ReadStatsLogger.new Level.info "READ").1.tag 0
        (((0 : Nat) : Int) + ((0 : Nat) : Int) - 1).toNat 0 0
        (((ReadStatsLogger.new Level.info "READ").1.read_count + 1) % usizeW)
        (((ReadStatsLogger.new Level.info "READ").1.bytes_total + 0) % usizeW) :=
  ⟨by decide, log_end_saturating (ReadStatsLogger.new Level.info "READ").1
    0 0 0 (by decide)⟩

/-- C7: every emitted line has the verbose-variant shape: the header is
the backticked tag followed by the schema suffix, and each data line is
the human-readable prefix followed by the comma-separated suffix
`tag,begin,end,length,request_length,read_count,bytes_total` in exactly
that order, filled with the post-increment counter values; concretely,
logging a 237-byte read with request length 8192 on a fresh `READ`
logger emits the exact line of the crate's doc comment. -/
theorem log_line_shape (level : Level) (tag : String)
    (st : ReadStatsLogger) (b l q : Nat) :
    (ReadStatsLogger.new level tag).2 =
      ["Initialize Read logger `" ++ tag ++
       "`,tag,begin,end,length,request_length,count,bytes_total"] ∧
    (st.log b l q).2 =
      "Read " ++ toString b ++ "-" ++ toString ((b + l) % usizeW - 1) ++
      " (" ++ toString l ++ " bytes). Total requests: " ++
      toString ((st.read_count + 1) % usizeW) ++ " (" ++
      toString ((st.bytes_total + l) % usizeW) ++ " bytes)," ++ st.tag ++
      "," ++ toString b ++ "," ++ toString ((b + l) % usizeW - 1) ++ "," ++
      toString l ++ "," ++ toString q ++ "," ++
      toString ((st.read_count + 1) % usizeW) ++ "," ++
      toString ((st.bytes_total + l) % usizeW) ∧
    ((ReadStatsLogger.new Level.debug "READ").1.log 0 237 8192).2 =
      "Read 0-236 (237 bytes). Total requests: 1 (237 bytes),READ,0,236,237,8192,1,237" :=
  ⟨rfl, rfl, by decide⟩

/-- C8: `ReadStatsLogger::log` is total and never fails; the counter
increments are `usize` arithmetic, so a `bytes_total` increment past the
maximum wraps to `(bytes_total + length) % 2 ^ 64` silently; concretely,
a logger at `bytes_total = 2 ^ 64 - 1` logging 2 more bytes wraps to
1. -/
theorem log_total_wraps (st : ReadStatsLogger) (b l q : Nat) :
    (st.log b l q).1.bytes_total = (st.bytes_total + l) % usizeW ∧
    (st.log b l q).1.read_count = (st.read_count + 1) % usizeW ∧
    ((ReadStatsLogger.mk "READ" Level.info 0 (usizeW - 1)).log 0 2 2).1.bytes_total
      = 1 :=
  ⟨rfl, rfl, by decide⟩

/-- Modelled from the spec: the request-counting policy read (spec
section 4.2, policy (a)), present in other revisions of the repository
but absent from `src/`: record `(begin = 0, length = buffer capacity)`
*before* delegating to the inner read, so the counter is updated whether
or not the inner read succeeds. -/
def readRequestCounting {σ E : Type}
    (readFn : σ → List Nat → σ × List Nat × Except E Nat)
    (rl : ReadLogger σ) (buf : List Nat) :
    ReadLogger σ × List Nat × List String × Except E Nat :=
  let st2 := (rl.logger.log 0 buf.length buf.length).1
  let line := (rl.logger.log 0 buf.length buf.length).2
  match readFn rl.inner buf with
  | (s2, buf2, r) => ({ inner := s2, logger := st2 }, buf2, [line], r)

/-- The counters observable after a sequence of request-counting reads
on a fresh wrapper over a cursor, together with whether every read
succeeded. -/
def reqStatsAfterReads (data : List Nat) (bufs : List (List Nat)) :
    Nat × Nat × Bool :=
  let r := runWith (readRequestCounting Cursor.read)
    (ReadLogger.new ⟨data, 0⟩ Level.info "READ").1 bufs
  (r.1.logger.read_count, r.1.logger.bytes_total, r.2.2.isOk)

/-- C9: under the request-counting policy, read records `(begin = 0,
length = buffer capacity)` before delegating, so each call adds the
buffer capacity to `bytes_total` regardless of the delivered count; for
a 10-byte source and three 4-byte requests (the last delivering only 2
bytes), `bytes_total = 12` and `read_count = 3`. -/
theorem request_counting_semantics {σ E : Type}
    (readFn : σ → List Nat → σ × List Nat × Except E Nat)
    (rl : ReadLogger σ) (buf : List Nat) :
    (readRequestCounting readFn rl buf).1.logger.read_count =
      (rl.logger.read_count + 1) % usizeW ∧
    (readRequestCounting readFn rl buf).1.logger.bytes_total =
      (rl.logger.bytes_total + buf.length) % usizeW ∧
    reqStatsAfterReads tenBytes [buf4, buf4, buf4] = (3, 12, true) := by
  refine ⟨?_, ?_, by decide⟩ <;>
    rcases h : readFn rl.inner buf with ⟨s2, buf2, r⟩ <;>
      simp [readRequestCounting, h, ReadStatsLogger.log]

/-- The `usize` width is positive. -/
theorem usizeW_pos : 0 < usizeW := by decide

/-- After a run of `ReadLogger::read` calls that all succeed,
`read_count` has advanced by the number of calls, modulo the `usize`
width. -/
theorem runReads_read_count {σ E : Type}
    (readFn : σ → List Nat → σ × List Nat × Except E Nat)
    (bufs : List (List Nat)) :
    ∀ rl : ReadLogger σ, rl.logger.read_count < usizeW →
      (runReads readFn rl bufs).2.2 = .ok () →
      (runReads readFn rl bufs).1.logger.read_count =
        (rl.logger.read_count + bufs.length) % usizeW := by
  induction bufs with
  | nil =>
    intro rl hlt _
    simp [runReads, runWith, Nat.mod_eq_of_lt hlt]
  | cons buf bufs ih =>
    intro rl hlt hok
    rcases h : readFn rl.inner buf with ⟨s2, buf2, r⟩
    cases r with
    | error e =>
      exfalso
      simp [runReads, runWith, ReadLogger.read, h] at hok
    | ok n =>
      have hstep : ReadLogger.read readFn rl buf =
          ({ inner := s2, logger := (rl.logger.log 0 n buf.length).1 }, buf2,
           [(rl.logger.log 0 n buf.length).2], .ok n) := by
        simp [ReadLogger.read, h]
      have hok2 : (runReads readFn
          ({ inner := s2, logger := (rl.logger.log 0 n buf.length).1 } :
            ReadLogger σ) bufs).2.2 = .ok () := by
        simpa [runReads, runWith, hstep] using hok
      have hlt2 : ((rl.logger.log 0 n buf.length).1 : ReadStatsLogger).read_count
          < usizeW := by
        simp [ReadStatsLogger.log]
        exact Nat.mod_lt _ usizeW_pos
      have := ih ({ inner := s2, logger := (rl.logger.log 0 n buf.length).1 })
        hlt2 hok2
      simp only [runReads, runWith, hstep] at this ⊢
      rw [this]
      simp [ReadStatsLogger.log, Nat.mod_add_mod]
      congr 1
      omega

/-- C3: for every sequence of `N` successful reads on a freshly
constructed `ReadLogger`, `read_count` equals `N` afterwards (stated for
`N` below the `usize` wraparound), and `bytes_total` is non-decreasing
across the sequence: each successful read step that does not wrap takes
`bytes_total` from `b` to `b + n ≥ b`. -/
theorem fresh_sequence_counters {σ E : Type}
    (readFn : σ → List Nat → σ × List Nat × Except E Nat) (inner : σ)
    (level : Level) (tag : String) (bufs : List (List Nat))
    (rl : ReadLogger σ) (buf : List Nat) (n : Nat)
    (hN : bufs.length < usizeW)
    (hall : (runReads readFn (ReadLogger.new inner level tag).1 bufs).2.2 = .ok ())
    (hstep : (ReadLogger.read readFn rl buf).2.2.2 = .ok n)
    (hnw : rl.logger.bytes_total + n < usizeW) :
    (runReads readFn (ReadLogger.new inner level tag).1 bufs).1.logger.read_count
      = bufs.length ∧
    rl.logger.bytes_total ≤ (ReadLogger.read readFn rl buf).1.logger.bytes_total := by
  constructor
  · have h0 : ((ReadLogger.new inner level tag).1 : ReadLogger σ).logger.read_count
        < usizeW := usizeW_pos
    have := runReads_read_count readFn bufs (ReadLogger.new inner level tag).1 h0 hall
    simpa [ReadLogger.new, ReadStatsLogger.new, Nat.mod_eq_of_lt hN] using this
  · rcases h : readFn rl.inner buf with ⟨s2, buf2, r⟩
    cases r with
    | error e =>
      exfalso
      simp [ReadLogger.read, h] at hstep
    | ok m =>
      have hmn : m = n := by
        simpa [ReadLogger.read, h] using hstep
      subst hmn
      simp [ReadLogger.read, h, ReadStatsLogger.log, Nat.mod_eq_of_lt hnw]

/-- Witness for C3: two successful 4-byte reads on a fresh wrapper over
the ten-byte cursor. -/
theorem fresh_sequence_counters_witness :
    ([buf4, buf4] : List (List Nat)).length < usizeW ∧
    (runReads Cursor.read
      (ReadLogger.new (⟨tenBytes, 0⟩ : Cursor) Level.info "READ").1
      [buf4, buf4]).2.2 = .ok () ∧
    (ReadLogger.read Cursor.read rlFresh buf4).2.2.2 = .ok 4 ∧
    rlFresh.logger.bytes_total + 4 < usizeW ∧
    ((runReads Cursor.read
        (ReadLogger.new (⟨tenBytes, 0⟩ : Cursor) Level.info "READ").1
        [buf4, buf4]).1.logger.read_count = 2 ∧
     rlFresh.logger.bytes_total ≤
       (ReadLogger.read Cursor.read rlFresh buf4).1.logger.bytes_total) :=
  ⟨by decide, by decide, by decide, by decide,
   fresh_sequence_counters Cursor.read (⟨tenBytes, 0⟩ : Cursor) Level.info
     "READ" [buf4, buf4] rlFresh buf4 4 (by decide) (by decide) (by decide)
     (by decide)⟩
